import Mathlib

/-!
# Verification of the AMiGA backend against its specification

Shallow embedding of the relevant parts of `backend/pumps.py`,
`backend/light.py`, `backend/control.py`, `backend/grow_scheduler.py` and
`backend/config_store.py`.

Conventions of the embedding:

* Python floats are modelled as `ℚ` (every comparison and division the
  claims mention is a single exact operation on the values involved).
* Stateful methods become explicit state-passing functions.  A method that
  can raise returns `Except Err α`; an escaping Python exception is the
  `Except.error` case.
* GPIO side effects are recorded in an event trace (`GpioEvent`), so that
  statements such as "no pump's direction or enable line is written" are
  statements about the trace produced by a call.
* Failures of the hardware layer inside a pulse loop (an `lgpio` call
  raising) are modelled by an injected boolean fault, quantified over in
  the theorems, so "the pulse step loop raising" is one of the modelled
  exit paths.
* Pin maps carry an optional `EN` entry, because the shipped `PUMP_PINS`
  in `settings.py` defines only `STEP` and `DIR` for both pumps while
  `pumps.py` indexes `self.pins["EN"]` unconditionally: that access
  raises `KeyError`, including inside `finally:` blocks, and the model
  reproduces it (Python semantics: an exception in a `finally` replaces
  the in-flight one, and the statements after the raising call do not
  run).  GPIO handle truthiness is modelled too, since the code tests
  `if not self._handle` and `lgpio` handles can be 0.
-/

namespace Amiga

/-- Python `str.lower()` on the characters of a string (the library
`String.toLower` does not reduce in the kernel, so the character list is
used throughout). -/
def pyLower (s : String) : List Char :=
  s.toList.map Char.toLower

/-- Errors raised by the pump layer (`RuntimeError` / `ValueError` in the
source, distinguished here by their meaning). -/
inductive PumpErr where
  /-- `RuntimeError(f"Pump '{name}' is already running.")` -/
  | alreadyRunning (pump : String)
  /-- `ValueError("dir must be 'forward' or 'reverse'")` -/
  | invalidDirection
  /-- `ValueError("hz must be > 0")` raised by the step loop. -/
  | invalidHz
  /-- an `lgpio` call raising inside the pulse loop (injected fault). -/
  | hardwareFault
  /-- `RuntimeError(... "has ml_per_sec=0" ...)` from `dispense_ml`. -/
  | calibrationMissing (pump : String)
  /-- `ValueError(f"Unknown pump '{name}'")` from `PumpManager.get_pump`. -/
  | unknownPump (pump : String)
  /-- Python `KeyError` from indexing a dictionary with an absent key,
  e.g. `self.pins["EN"]` when the pin map has no `EN` entry. -/
  | keyError (key : String)
  /-- `RuntimeError(f"Pump ... is not initialized.")` from
  `_set_direction`, or `RuntimeError("PumpManager not initialized.")`. -/
  | notInitialized (who : String)
deriving DecidableEq, Repr

/-- One write to a GPIO line, as performed by `lgpio.gpio_write` in
`_set_direction` / `_enable_driver`.  The EN line is active-low: level 0
asserts (enables the driver), level 1 deasserts (disables it).  STEP-pin
pulses are time-dependent and bracketed by the EN writes, so the trace
records the DIR and EN writes the claims are about. -/
inductive GpioEvent where
  | dirWrite (pump : String) (level : Nat)
  | enWrite (pump : String) (level : Nat)
deriving DecidableEq, Repr

/-- A per-pump pin map from `PUMP_PINS` in `settings.py`.  The `EN` key
is optional: the shipped `PUMP_PINS` defines only `STEP` and `DIR` for
both pumps (a separate, unused `GLOBAL_PUMP_EN` exists instead), while
`pumps.py` indexes `self.pins["EN"]` unconditionally — accessing an
absent key raises `KeyError`. -/
structure Pins where
  step : Nat
  dir : Nat
  en : Option Nat
deriving DecidableEq, Repr

/-- The shipped `PUMP_PINS["food"]`: `STEP 27, DIR 22`, no `EN` key. -/
def FOOD_PINS : Pins :=
  { step := 27, dir := 22, en := none }

/-- The shipped `PUMP_PINS["water"]`: `STEP 16, DIR 26`, no `EN` key. -/
def WATER_PINS : Pins :=
  { step := 16, dir := 26, en := none }

/-- Python truthiness of a GPIO handle: `self._handle` is falsy when it
is `None` and also when `lgpio.gpiochip_open` returned the handle `0`
(the code tests `if not self._handle`). -/
def truthy (h : Option Nat) : Bool :=
  match h with
  | none => false
  | some v => decide (v ≠ 0)

/-- State of one `StepperPump` object: its pin map, its bound GPIO
handle (if any), its `threading.Lock`, the public `is_running` flag, the
current levels on its EN and DIR lines, and the cached
`calibration_rate`. -/
structure PumpState where
  pins : Pins
  handle : Option Nat
  lockHeld : Bool
  is_running : Bool
  en : Nat
  dir : Nat
  calibration_rate : ℚ
deriving DecidableEq, Repr

/-- Truthiness of the pump's own `_handle`. -/
def PumpState.handleTruthy (ps : PumpState) : Bool :=
  truthy ps.handle

/-- A pump object as built by the `StepperPump` constructor: no handle
bound yet, lock free, not running. -/
def PumpState.fresh (pins : Pins) (rate : ℚ) : PumpState :=
  { pins := pins, handle := none, lockHeld := false, is_running := false,
    en := 1, dir := 0, calibration_rate := rate }

/-- Embeds `StepperPump.initialize`: assign `self._handle` first, claim
the STEP and DIR outputs, then index `self.pins["EN"]` — which raises
`KeyError` when the pin map has no `EN` entry, leaving the handle
assigned but EN unclaimed.  With the shipped `PUMP_PINS` this raises for
every pump, so `PumpManager.startup` always fails. -/
def initialize_pump (ps : PumpState) (handle : Nat) :
    Except PumpErr Unit × PumpState :=
  let ps1 : PumpState := { ps with handle := some handle }
  match ps1.pins.en with
  | none => (.error (.keyError "EN"), ps1)
  | some _ => (.ok (), { ps1 with en := 1, dir := 0 })

/-- A pump whose `initialize` call raised `KeyError("EN")` after
assigning the handle: the state every shipped pump is left in once
`PumpManager.startup` has run. -/
def boundPump (pins : Pins) (handle : Nat) (rate : ℚ) : PumpState :=
  { PumpState.fresh pins rate with handle := some handle }

/-- Embeds `StepperPump._set_direction`: the DIR level for a direction string, or
`none` when the string is invalid (the method then raises `ValueError`). -/
def dirLevel (dir_name : String) : Option Nat :=
  let name := pyLower dir_name
  if name = "fwd".toList ∨ name = "forward".toList ∨ name = "cw".toList then
    some 1
  else if name = "rev".toList ∨ name = "reverse".toList ∨
      name = "ccw".toList ∨ name = "back".toList then
    some 0
  else none

/-- Embeds `StepperPump._step_loop`: raises `ValueError` when `hz <= 0`, returns
immediately when `seconds <= 0`, and otherwise pulses the STEP pin until
the deadline; `fault` injects an `lgpio` failure inside that loop. -/
def step_loop (hz seconds : ℚ) (fault : Bool) : Except PumpErr Unit :=
  if hz ≤ 0 then .error .invalidHz
  else if seconds ≤ 0 then .ok ()
  else if fault then .error .hardwareFault
  else .ok ()

/-- Result dictionary returned by `run_for_seconds` (the `status: ok`
payload), extended by `dispense_ml` with the volume and rate used. -/
structure RunResult where
  pump : String
  seconds : ℚ
  hz : ℚ
  direction : String
  ml : Option ℚ
  rate_ml_per_sec : Option ℚ
deriving DecidableEq, Repr

/-- Embeds `StepperPump._set_direction`: raise `RuntimeError` when the
handle is falsy, then map the direction name to a DIR level and write it
(raising `ValueError` for an unknown name). -/
def set_direction (name : String) (ps : PumpState) (dir_name : String) :
    Except PumpErr (PumpState × List GpioEvent) :=
  if ps.handleTruthy = false then .error (.notInitialized name)
  else
    match dirLevel dir_name with
    | some d => .ok ({ ps with dir := d }, [.dirWrite name d])
    | none => .error .invalidDirection

/-- Embeds `StepperPump._enable_driver`: return silently (no write) when
the handle is falsy; otherwise index `self.pins["EN"]` — raising
`KeyError` when the pin map has no `EN` entry — and write the active-low
level (0 = enabled, 1 = disabled). -/
def enable_driver (name : String) (ps : PumpState) (enable : Bool) :
    Except PumpErr (PumpState × List GpioEvent) :=
  if ps.handleTruthy = false then .ok (ps, [])
  else
    match ps.pins.en with
    | none => .error (.keyError "EN")
    | some _ =>
      let lvl := if enable then 0 else 1
      .ok ({ ps with en := lvl }, [.enWrite name lvl])

/-- The `try:` body of `run_for_seconds`: set the direction line, assert
EN via `_enable_driver(True)` (which raises `KeyError` under the shipped
pin maps), then run the pulse loop.  Returns the outcome together with
the pump state and the GPIO writes performed so far. -/
def runBody (name : String) (ps : PumpState) (seconds hz : ℚ)
    (direction : String) (fault : Bool) :
    Except PumpErr Unit × PumpState × List GpioEvent :=
  match set_direction name ps direction with
  | .error e => (.error e, ps, [])
  | .ok (ps1, tr1) =>
    match enable_driver name ps1 true with
    | .error e => (.error e, ps1, tr1)
    | .ok (ps2, tr2) =>
      match step_loop hz seconds fault with
      | .error e => (.error e, ps2, tr1 ++ tr2)
      | .ok _ => (.ok (), ps2, tr1 ++ tr2)

/-- The `finally:` block of `run_for_seconds`: `_enable_driver(False)`,
then clear `is_running` and release the lock.  When `_enable_driver`
itself raises (`KeyError("EN")` on a truthy handle with the shipped pin
maps), the raise happens before `is_running = False` and
`self._lock.release()`, so the guard stays held. -/
def finallyCleanup (name : String) (ps : PumpState) (tr : List GpioEvent) :
    Except PumpErr Unit × PumpState × List GpioEvent :=
  match enable_driver name ps false with
  | .error e => (.error e, ps, tr)
  | .ok (ps2, tr2) =>
    (.ok (), { ps2 with is_running := false, lockHeld := false },
     tr ++ tr2)

/-- Embeds `StepperPump.run_for_seconds`: non-blocking lock acquisition
(raising `AlreadyRunning` when the guard is held), then the `try` body
with the `finally` cleanup; an exception raised inside the `finally`
replaces the body's outcome, as in Python. -/
def run_for_seconds (name : String) (ps : PumpState) (seconds hz : ℚ)
    (direction : String) (fault : Bool) :
    Except PumpErr RunResult × PumpState × List GpioEvent :=
  if ps.lockHeld then (.error (.alreadyRunning name), ps, [])
  else
    let ps1 : PumpState := { ps with lockHeld := true, is_running := true }
    let bodyOut := runBody name ps1 seconds hz direction fault
    let fin := finallyCleanup name bodyOut.2.1 bodyOut.2.2
    match fin.1 with
    | .error e2 => (.error e2, fin.2.1, fin.2.2)
    | .ok _ =>
      match bodyOut.1 with
      | .error e => (.error e, fin.2.1, fin.2.2)
      | .ok _ =>
        (.ok { pump := name, seconds := seconds, hz := hz,
               direction := direction, ml := none,
               rate_ml_per_sec := none },
         fin.2.1, fin.2.2)

/-- Per-pump dictionary inside `calibration.json`, e.g.
`{"ml_per_sec": 4.436}`: an association list of keyed rationals.  The
empty list models an empty (falsy) JSON object. -/
abbrev PumpEntry : Type := List (String × ℚ)

/-- The calibration file content: its `"pumps"` dictionary (the code reads
it with `data.get("pumps", {})`, so a file without the key behaves as an
empty dictionary, which the empty list models). -/
structure CalData where
  pumps : List (String × PumpEntry)
deriving DecidableEq

/-- The three conditions `load_calibration` distinguishes for the external
store: file absent, file unreadable/corrupt, or file present with data. -/
inductive CalStore where
  | missing
  | corrupt
  | present (data : CalData)

/-- Embeds `DEFAULT_CALIBRATION` in `config_store.py`: water at 4.436 ml/s and
food at 0.0 ml/s. -/
def DEFAULT_CALIBRATION : CalData :=
  { pumps := [("water", [("ml_per_sec", 4436/1000)]),
              ("food", [("ml_per_sec", 0)])] }

/-- Embeds `config_store.load_calibration`: the default map when the file is
missing or corrupted, else the file's content. -/
def load_calibration (store : CalStore) : CalData :=
  match store with
  | .missing => DEFAULT_CALIBRATION
  | .corrupt => DEFAULT_CALIBRATION
  | .present data => data

/-- Embeds `config_store.get_pump_calibration`: `None` when the pump has no entry
(or a falsy, i.e. empty, entry) under `"pumps"`, else the entry's
`ml_per_sec` value (defaulting to 0.0 when that key is absent). -/
def get_pump_calibration (store : CalStore) (pump : String) : Option ℚ :=
  let data := load_calibration store
  match data.pumps.lookup pump with
  | none => none
  | some pump_data =>
    if pump_data = ([] : PumpEntry) then none
    else some (((pump_data : List (String × ℚ)).lookup "ml_per_sec").getD 0)

/-- Embeds `StepperPump._load_calibration`:
`config_store.get_pump_calibration(self.name) or 0.0` — a missing (or
falsy 0.0) calibration becomes the rate 0.0. -/
def pump_load_calibration (store : CalStore) (name : String) : ℚ :=
  (get_pump_calibration store name).getD 0

/-- Embeds `StepperPump.dispense_ml`: refresh the calibration rate from the
store, fail with `CalibrationMissing` when the rate is ≤ 0 (before any
hardware action), else run for `ml / rate` seconds via `run_for_seconds`
and extend the result with the volume and rate used. -/
def dispense_ml (store : CalStore) (name : String) (ps : PumpState)
    (ml hz : ℚ) (direction : String) (fault : Bool) :
    Except PumpErr RunResult × PumpState × List GpioEvent :=
  let rate := pump_load_calibration store name
  let ps1 : PumpState := { ps with calibration_rate := rate }
  if rate ≤ 0 then (.error (.calibrationMissing name), ps1, [])
  else
    let seconds := ml / rate
    let out := run_for_seconds name ps1 seconds hz direction fault
    match out.1 with
    | .error e => (.error e, out.2.1, out.2.2)
    | .ok r =>
      (.ok { r with ml := some ml, rate_ml_per_sec := some rate },
       out.2.1, out.2.2)

/-- Errors raised by `GrowLight` configuration (`ValueError` in the
source, split by meaning as the spec does). -/
inductive LightErr where
  /-- `ValueError("mode must be 'manual' or 'daynight'")` -/
  | invalidMode
  /-- any `ValueError` out of `_parse_hhmm` / the `time` constructor. -/
  | invalidTimeFormat
deriving DecidableEq, Repr

/-- Python `str.strip()`: drop whitespace from both ends. -/
def pyStrip (cs : List Char) : List Char :=
  ((cs.dropWhile Char.isWhitespace).reverse.dropWhile Char.isWhitespace).reverse

/-- Python `str.split(sep)` for a one-character separator: keeps empty
parts, and the empty string yields one empty part. -/
def pySplit (sep : Char) : List Char → List (List Char)
  | [] => [[]]
  | c :: rest =>
    match pySplit sep rest with
    | [] => if c = sep then [[], []] else [[c]]
    | h :: t => if c = sep then [] :: h :: t else (c :: h) :: t

/-- Digit-string value, `none` when empty or holding a non-digit. -/
def digitsToNat (cs : List Char) : Option Nat :=
  if cs = [] then none
  else if cs.all Char.isDigit then
    some (cs.foldl (fun acc c => acc * 10 + (c.toNat - 48)) 0)
  else none

/-- Python `int(str)`: strip, optional sign, decimal digits; `none` models
the `ValueError` that `int` raises otherwise (digit-grouping underscores
and non-ASCII digits, which the claims never exercise, are not
modelled). -/
def pyInt (cs : List Char) : Option Int :=
  match pyStrip cs with
  | [] => none
  | c :: rest =>
    if c = '-' then (digitsToNat rest).map (fun n => -(n : Int))
    else if c = '+' then (digitsToNat rest).map (fun n => (n : Int))
    else (digitsToNat (c :: rest)).map (fun n => (n : Int))

/-- Embeds `datetime.time(hour, minute, second)`: validates the ranges (raising
`ValueError` otherwise) and is modelled as seconds since midnight, which
orders exactly like the field-wise comparison of `datetime.time`. -/
def dtimeMk (h m s : Int) : Option Nat :=
  if 0 ≤ h ∧ h < 24 ∧ 0 ≤ m ∧ m < 60 ∧ 0 ≤ s ∧ s < 60 then
    some (h.toNat * 3600 + m.toNat * 60 + s.toNat)
  else none

/-- Embeds `GrowLight._parse_hhmm`: strip and split on `:`, require at least two
parts, parse hour and minute (and the third part as seconds when present,
ignoring any further parts), and build the `datetime.time`.  Every raised
`ValueError` is the spec's `InvalidTimeFormat`. -/
def parse_hhmm (value : String) : Except LightErr Nat :=
  match pySplit ':' (pyStrip value.toList) with
  | p0 :: p1 :: rest =>
    match pyInt p0, pyInt p1 with
    | some h, some m =>
      match (match rest with
             | [] => some (0 : Int)
             | r0 :: _ => pyInt r0) with
      | some s =>
        match dtimeMk h m s with
        | some t => .ok t
        | none => .error .invalidTimeFormat
      | none => .error .invalidTimeFormat
    | _, _ => .error .invalidTimeFormat
  | _ => .error .invalidTimeFormat

/-- The schedule-relevant state of a `GrowLight`: the mode and the two
window bounds (seconds since midnight). -/
structure LightConfig where
  mode : List Char
  day_start : Nat
  day_end : Nat
deriving DecidableEq, Repr

/-- The constructor defaults: manual mode, `day_start` 19:00,
`day_end` 07:00. -/
def LightConfig.boot : LightConfig :=
  { mode := "manual".toList, day_start := 19 * 3600, day_end := 7 * 3600 }

/-- Embeds `GrowLight.set_config`: lowercase and validate the mode (raising
`InvalidMode` before any field is assigned), then assign `self.mode`,
then parse and assign `self.day_start`, then parse and assign
`self.day_end`; the pair returned is the outcome together with the stored
configuration when the call finishes (also on an escaping error). -/
def set_config (cfg : LightConfig) (mode day_start day_end : String) :
    Except LightErr LightConfig × LightConfig :=
  let m := pyLower mode
  if m ≠ "manual".toList ∧ m ≠ "daynight".toList then (.error .invalidMode, cfg)
  else
    let cfg1 : LightConfig := { cfg with mode := m }
    match parse_hhmm day_start with
    | .error e => (.error e, cfg1)
    | .ok ds =>
      let cfg2 : LightConfig := { cfg1 with day_start := ds }
      match parse_hhmm day_end with
      | .error e => (.error e, cfg2)
      | .ok de =>
        let cfg3 : LightConfig := { cfg2 with day_end := de }
        (.ok cfg3, cfg3)

/-- Embeds `GrowLight._is_within_window` applied to a time-of-day `t` (seconds
since midnight): plain interval membership when `day_start < day_end`,
else the complement of the reversed interval. -/
def is_within_window (day_start day_end t : Nat) : Bool :=
  if day_start < day_end then decide (day_start ≤ t ∧ t < day_end)
  else ! decide (day_end ≤ t ∧ t < day_start)

/-- The `PumpManager`'s pump table: Python holds one shared object per
pump name, modelled as a map from names to pump states (`none` for a name
outside `PUMP_PINS`, where `get_pump` raises). -/
def PumpMap : Type := String → Option PumpState

/-- Point update of the pump table (mutation of the named shared pump
object). -/
def PumpMap.update (m : PumpMap) (name : String) (ps : PumpState) :
    PumpMap :=
  fun x => if x = name then some ps else m x

/-- The guard bit of a table entry (`false` for an absent pump). -/
def lockOf (o : Option PumpState) : Bool :=
  match o with
  | none => false
  | some ps => ps.lockHeld

/-- The first requested name `get_pump` raises `Unknown pump` for, if
any (the list comprehension building `active_pumps` evaluates the
lookups in order before anything is locked). -/
def firstUnknown (m : PumpMap) : List String → Option String
  | [] => none
  | n :: rest => if (m n).isNone then some n else firstUnknown m rest

/-- The lock-acquisition loop of `run_multi_seconds`: walk the requested
pumps in order, acquiring each free guard (non-blocking); stop at the
first pump whose guard is held, reporting it as the offender.  Returns
the updated table, the list of pumps acquired by this call (in order),
and the offender if any. -/
def acquireLoop (m : PumpMap) : List String →
    PumpMap × List String × Option String
  | [] => (m, [], none)
  | n :: rest =>
    match m n with
    | none => (m, [], none)
    | some ps =>
      if ps.lockHeld then (m, [], some n)
      else
        let m1 := m.update n { ps with lockHeld := true }
        let out := acquireLoop m1 rest
        (out.1, n :: out.2.1, out.2.2)

/-- The `finally:` teardown of `run_multi_seconds`: for each acquired
pump in order, `_enable_driver(False)`, clear `is_running`, release its
guard.  When `_enable_driver` raises (`KeyError("EN")` on a truthy
handle with the shipped pin maps), the loop aborts: the current pump's
guard and every remaining acquired guard stay held. -/
def teardownLoop (m : PumpMap) (tr : List GpioEvent) : List String →
    Except PumpErr Unit × PumpMap × List GpioEvent
  | [] => (.ok (), m, tr)
  | n :: rest =>
    match m n with
    | none => teardownLoop m tr rest
    | some ps =>
      match enable_driver n ps false with
      | .error e => (.error e, m, tr)
      | .ok (ps2, tr2) =>
        teardownLoop
          (m.update n { ps2 with is_running := false, lockHeld := false })
          (tr ++ tr2) rest

/-- The setup loop of `run_multi_seconds`: for each requested pump, set
`is_running`, call `_set_direction` and `_enable_driver(True)`; a raise
from either aborts the loop part-way through. -/
def setupLoop (m : PumpMap) (tr : List GpioEvent) (direction : String) :
    List String → Except PumpErr Unit × PumpMap × List GpioEvent
  | [] => (.ok (), m, tr)
  | n :: rest =>
    match m n with
    | none => setupLoop m tr direction rest
    | some ps =>
      let ps1 : PumpState := { ps with is_running := true }
      match set_direction n ps1 direction with
      | .error e => (.error e, m.update n ps1, tr)
      | .ok (ps2, tr1) =>
        match enable_driver n ps2 true with
        | .error e => (.error e, m.update n ps2, tr ++ tr1)
        | .ok (ps3, tr2) =>
          setupLoop (m.update n ps3) (tr ++ tr1 ++ tr2) direction rest

/-- Result dictionary of a successful `run_multi_seconds`. -/
structure MultiRunResult where
  pumps : List String
  seconds : ℚ
  hz : ℚ
  direction : String
deriving DecidableEq, Repr

/-- Embeds `PumpManager.run_multi_seconds`: raise when the manager's own
handle is falsy, resolve all names, acquire every guard up front, and on
an acquisition failure raise `AlreadyRunning` for the offender — the
`finally:` block then tears down exactly the pumps this call acquired,
and an exception raised inside that teardown replaces the in-flight
outcome, as in Python.  On full acquisition, set up all pumps, pulse
them together (`step_for_seconds_multi` validates `hz` and `seconds`
exactly like `_step_loop`, with `fault` injecting an `lgpio` failure),
and tear down in the same `finally:` block. -/
def run_multi_seconds (mgrHandle : Option Nat) (m : PumpMap)
    (names : List String) (seconds hz : ℚ) (direction : String)
    (fault : Bool) :
    Except PumpErr MultiRunResult × PumpMap × List GpioEvent :=
  if truthy mgrHandle = false then
    (.error (.notInitialized "PumpManager"), m, [])
  else
    match firstUnknown m names with
    | some n => (.error (.unknownPump n), m, [])
    | none =>
      let acq := acquireLoop m names
      match acq.2.2 with
      | some offender =>
        let down := teardownLoop acq.1 [] acq.2.1
        match down.1 with
        | .error e2 => (.error e2, down.2.1, down.2.2)
        | .ok _ => (.error (.alreadyRunning offender), down.2.1, down.2.2)
      | none =>
        let setup := setupLoop acq.1 [] direction names
        let body : Except PumpErr Unit :=
          match setup.1 with
          | .error e => .error e
          | .ok _ => step_loop hz seconds fault
        let down := teardownLoop setup.2.1 setup.2.2 acq.2.1
        match down.1 with
        | .error e2 => (.error e2, down.2.1, down.2.2)
        | .ok _ =>
          match body with
          | .error e => (.error e, down.2.1, down.2.2)
          | .ok _ =>
            (.ok { pumps := names, seconds := seconds, hz := hz,
                   direction := direction },
             down.2.1, down.2.2)

/-- Concrete two-pump table in the state the shipped program reaches
after `PumpManager.startup` (each `initialize` raised `KeyError("EN")`
with the handle already assigned): `food` idle, `water` with its guard
already held by another run. -/
def twoPumpTable : PumpMap :=
  fun n =>
    if n = "food" then some (boundPump FOOD_PINS 1 0)
    else if n = "water" then
      some { boundPump WATER_PINS 1 4 with lockHeld := true }
    else none

/-- Result dictionary of `control_cycle_once` (the fields the claims are
about; the snapshots are their voltage lists). -/
structure CycleResult where
  target_threshold : ℚ
  vote_k : ℤ
  pump : String
  before : List ℚ
  after : Option (List ℚ)
  under_threshold_count : Nat
  triggered : Bool
  irrigated : Bool
  pump_action : Option RunResult
deriving DecidableEq, Repr

/-- Embeds `control.control_cycle_once`: take the "before" snapshot, count the
channels whose voltage is strictly above the threshold, trigger when that
count reaches `vote_k`; when triggered with a positive irrigation time,
run the pump via `run_for_seconds` (a raising run propagates) and take an
"after" snapshot, else return with no pump action and no "after"
snapshot.  `before` and `afterEnv` are the voltages the sensor layer
would deliver for the two snapshots. -/
def control_cycle_once (pumpName : String) (ps : PumpState)
    (before afterEnv : List ℚ) (target_threshold : ℚ) (vote_k : ℤ)
    (hz irrigate_seconds : ℚ) (direction : String) (fault : Bool) :
    Except PumpErr CycleResult × PumpState × List GpioEvent :=
  let over : Nat := (before.filter (fun v => target_threshold < v)).length
  let triggered : Bool := decide (vote_k ≤ (over : ℤ))
  if triggered = true ∧ 0 < irrigate_seconds then
    let run := run_for_seconds pumpName ps irrigate_seconds hz direction
      fault
    match run.1 with
    | .error e => (.error e, run.2.1, run.2.2)
    | .ok action =>
      (.ok { target_threshold := target_threshold, vote_k := vote_k,
             pump := pumpName, before := before, after := some afterEnv,
             under_threshold_count := over, triggered := triggered,
             irrigated := true, pump_action := some action },
       run.2.1, run.2.2)
  else
    (.ok { target_threshold := target_threshold, vote_k := vote_k,
           pump := pumpName, before := before, after := none,
           under_threshold_count := over, triggered := triggered,
           irrigated := false, pump_action := none },
     ps, [])

/-- The persisted scheduler state file `scheduler_state.json`. -/
structure SchedState where
  last_food_date : String
  last_food_at : String
deriving DecidableEq, Repr

/-- The clock values a tick reads from `datetime.now(tz)`: the local date
ISO string, the time of day in whole seconds, and the full ISO
timestamp. -/
structure Now where
  dateIso : String
  tod : Nat
  iso : String
deriving DecidableEq, Repr

/-- Embeds `FOOD_DOSE_TIME = "12:00"` parsed by the scheduler's `_parse_hhmm`
(seconds forced to 0): noon, as seconds since midnight. -/
def FOOD_DOSE_TIME_SECONDS : Nat := 12 * 3600

/-- Embeds `grow_scheduler._food_due`: due iff the current time has reached the
dose time today and the stored date differs from today. -/
def food_due (now : Now) (last_food_date : String) : Bool :=
  decide (FOOD_DOSE_TIME_SECONDS ≤ now.tod) &&
    decide (last_food_date ≠ now.dateIso)

/-- The outcome of `_run_food_dose` (dispense then a log entry, both able
to raise): success, a raising dispense (no dose delivered), or a raising
log call after a delivered dose. -/
inductive DoseOutcome where
  | ok
  | dispenseFail
  | logFail
deriving DecidableEq, Repr

/-- The exception environment of one tick: whether the guarded lighting
block raises, how the food-dose action ends, and whether the
`master_log.log_event` call inside the food `except:` handler raises. -/
structure TickEnv where
  lightingRaises : Bool
  doseOutcome : DoseOutcome
  failLogRaises : Bool
deriving DecidableEq, Repr

/-- Observable outcome of one `tick`: whether an exception escaped the
call, how many food-dose actions were attempted, the persisted scheduler
state after the call, and whether the day-night application ran to
completion. -/
structure TickOut where
  outcome : Except String Unit
  foodAttempts : Nat
  state : SchedState
  lightingApplied : Bool
deriving Repr

/-- Embeds `grow_scheduler.tick`: the lighting block runs when the fixed
day-night start has passed, with its own `try/except` that swallows its
exceptions; food dosing requires plant status `germinated`, runs at most
one dose per tick, persists the new date only on a fully successful dose
action, and on a failed dose logs the failure — that log call itself is
outside any handler, so its exception escapes the tick. -/
def tick (env : TickEnv) (status : String) (st : SchedState) (now : Now)
    (daynightStarted : Bool) : TickOut :=
  let lightingApplied := daynightStarted && !env.lightingRaises
  if status ≠ "germinated" then
    { outcome := .ok (), foodAttempts := 0, state := st,
      lightingApplied := lightingApplied }
  else if food_due now st.last_food_date then
    match env.doseOutcome with
    | .ok =>
      { outcome := .ok (), foodAttempts := 1,
        state := { last_food_date := now.dateIso, last_food_at := now.iso },
        lightingApplied := lightingApplied }
    | _ =>
      if env.failLogRaises then
        { outcome := .error "log_event raised inside the except handler",
          foodAttempts := 1, state := st,
          lightingApplied := lightingApplied }
      else
        { outcome := .ok (), foodAttempts := 1, state := st,
          lightingApplied := lightingApplied }
  else
    { outcome := .ok (), foodAttempts := 0, state := st,
      lightingApplied := lightingApplied }

/-- The varying inputs of one loop iteration of `run_forever`. -/
structure TickInput where
  env : TickEnv
  status : String
  now : Now
  daynightStarted : Bool
deriving Repr

/-- Embeds `grow_scheduler.run_forever`: run `tick` once per iteration until the
stop flag is set (modelled by the end of the input list); an exception
escaping `tick` propagates and terminates the loop.  Returns the final
persisted state and the number of completed iterations. -/
def run_forever (st : SchedState) :
    List TickInput → Except String (SchedState × Nat)
  | [] => .ok (st, 0)
  | i :: rest =>
    let out := tick i.env i.status st i.now i.daynightStarted
    match out.outcome with
    | .error e => .error e
    | .ok _ =>
      match run_forever out.state rest with
      | .error e => .error e
      | .ok p => .ok (p.1, p.2 + 1)

/-- A tick environment that lets everything escape that can: the dispense
raises and so does the log call inside the failure handler. -/
def badTickEnv : TickEnv :=
  { lightingRaises := false, doseOutcome := .dispenseFail,
    failLogRaises := true }

/-- A benign tick environment. -/
def goodTickEnv : TickEnv :=
  { lightingRaises := false, doseOutcome := .ok, failLogRaises := false }

/-- A concrete afternoon clock reading. -/
def sampleNow : Now :=
  { dateIso := "2026-01-02", tod := 50000,
    iso := "2026-01-02T13:53:20-08:00" }

/-- The scheduler state before any dose was ever persisted. -/
def emptySchedState : SchedState :=
  { last_food_date := "", last_food_at := "" }

/-- A loop iteration in which the tick raises. -/
def badTickInput : TickInput :=
  { env := badTickEnv, status := "germinated", now := sampleNow,
    daynightStarted := true }

/-- A loop iteration in which the tick succeeds. -/
def goodTickInput : TickInput :=
  { env := goodTickEnv, status := "germinated", now := sampleNow,
    daynightStarted := true }

/-- The "before" voltages of the specification's worked example:
`[2.5, 2.6, 1.0, 1.1]` volts. -/
def exampleVolts : List ℚ := [5/2, 13/5, 1, 11/10]

end Amiga

namespace Amiga

/-- C2 (code bug): the shipped `PUMP_PINS` has no `EN` key, so on a pump
bound to a truthy handle the `finally:` block's `_enable_driver(False)`
raises `KeyError("EN")` before `is_running = False` and
`self._lock.release()` — the call propagates `KeyError` with the guard
still held and the enable line never driven; on a falsy handle (chip
handle 0) nothing is written at all.  `initialize` itself raises
`KeyError("EN")` for both shipped pin maps, contradicting its own
docstring (safe default `EN HIGH = disabled`). -/
theorem run_for_seconds_finally_keyerror :
    (initialize_pump (PumpState.fresh WATER_PINS 4) 1).1
      = .error (.keyError "EN") ∧
    (initialize_pump (PumpState.fresh FOOD_PINS 0) 1).1
      = .error (.keyError "EN") ∧
    (run_for_seconds "water" (boundPump WATER_PINS 1 4) 5 100 "forward"
        false).1 = .error (.keyError "EN") ∧
    ((run_for_seconds "water" (boundPump WATER_PINS 1 4) 5 100 "forward"
        false).2.1).lockHeld = true ∧
    ((run_for_seconds "water" (boundPump WATER_PINS 1 4) 5 100 "forward"
        false).2.1).is_running = true ∧
    (run_for_seconds "water" (boundPump WATER_PINS 1 4) 5 100 "forward"
        false).2.2 = [GpioEvent.dirWrite "water" 1] ∧
    (run_for_seconds "water" (boundPump WATER_PINS 0 4) 5 100 "forward"
        false).1 = .error (.notInitialized "water") ∧
    (run_for_seconds "water" (boundPump WATER_PINS 0 4) 5 100 "forward"
        false).2.2 = [] :=
  ⟨rfl, rfl, rfl, rfl, rfl, rfl, rfl, rfl⟩

/-- Helper: `_set_direction` only raises the not-initialized error or the
invalid-direction `ValueError`. -/
theorem set_direction_err (name : String) (ps : PumpState)
    (dir_name : String) (e : PumpErr)
    (h : set_direction name ps dir_name = .error e) :
    e = .notInitialized name ∨ e = .invalidDirection := by
  unfold set_direction at h
  split at h
  · left
    exact ((Except.error.injEq _ _).mp h).symm
  · split at h
    · cases h
    · right
      exact ((Except.error.injEq _ _).mp h).symm

/-- Helper: `_enable_driver` only raises `KeyError("EN")`. -/
theorem enable_driver_err (name : String) (ps : PumpState) (b : Bool)
    (e : PumpErr) (h : enable_driver name ps b = .error e) :
    e = .keyError "EN" := by
  unfold enable_driver at h
  split at h
  · cases h
  · split at h
    · exact ((Except.error.injEq _ _).mp h).symm
    · cases h

/-- Helper: the `finally:` block of `run_for_seconds` only raises
`KeyError("EN")`. -/
theorem finallyCleanup_err (name : String) (ps : PumpState)
    (tr : List GpioEvent) (e : PumpErr)
    (h : (finallyCleanup name ps tr).1 = .error e) :
    e = .keyError "EN" := by
  unfold finallyCleanup at h
  rcases he : enable_driver name ps false with e2 | pr
  · rw [he] at h
    simp only [Except.error.injEq] at h
    rw [← h]
    exact enable_driver_err name ps false e2 he
  · rw [he] at h
    cases h

/-- Helper: the pulse loop only raises `invalidHz` or the injected
hardware fault. -/
theorem step_loop_err (hz seconds : ℚ) (fault : Bool) (e : PumpErr)
    (h : step_loop hz seconds fault = .error e) :
    e = .invalidHz ∨ e = .hardwareFault := by
  unfold step_loop at h
  split at h
  · left
    exact (Except.error.injEq _ _).mp h.symm
  · split at h
    · cases h
    · split at h
      · right
        exact (Except.error.injEq _ _).mp h.symm
      · cases h

/-- Helper: the `try:` body of `run_for_seconds` only raises the
not-initialized error, the invalid-direction `ValueError`,
`KeyError("EN")`, or a pulse-loop error. -/
theorem runBody_err (name : String) (ps : PumpState) (seconds hz : ℚ)
    (direction : String) (fault : Bool) (e : PumpErr)
    (h : (runBody name ps seconds hz direction fault).1 = .error e) :
    e = .notInitialized name ∨ e = .invalidDirection ∨
    e = .keyError "EN" ∨ e = .invalidHz ∨ e = .hardwareFault := by
  unfold runBody at h
  rcases hd : set_direction name ps direction with e1 | pr1
  · simp only [hd, Except.error.injEq] at h
    rcases set_direction_err name ps direction e1 hd with h1 | h1 <;>
      rw [← h, h1]
    · exact Or.inl rfl
    · exact Or.inr (Or.inl rfl)
  · rcases pr1 with ⟨ps1, tr1⟩
    simp only [hd] at h
    rcases he : enable_driver name ps1 true with e2 | pr2
    · simp only [he, Except.error.injEq] at h
      rw [← h, enable_driver_err name ps1 true e2 he]
      exact Or.inr (Or.inr (Or.inl rfl))
    · rcases pr2 with ⟨ps2, tr2⟩
      simp only [he] at h
      rcases hs : step_loop hz seconds fault with e3 | u
      · simp only [hs, Except.error.injEq] at h
        rcases step_loop_err hz seconds fault e3 hs with h1 | h1 <;>
          rw [← h, h1]
        · exact Or.inr (Or.inr (Or.inr (Or.inl rfl)))
        · exact Or.inr (Or.inr (Or.inr (Or.inr rfl)))
      · simp only [hs] at h
        cases h

/-- Helper: every error out of `run_for_seconds` is the busy guard, a
body error, or the cleanup `KeyError`. -/
theorem run_err (name : String) (ps : PumpState) (seconds hz : ℚ)
    (direction : String) (fault : Bool) (e : PumpErr)
    (h : (run_for_seconds name ps seconds hz direction fault).1
      = .error e) :
    e = .alreadyRunning name ∨ e = .notInitialized name ∨
    e = .invalidDirection ∨ e = .keyError "EN" ∨ e = .invalidHz ∨
    e = .hardwareFault := by
  unfold run_for_seconds at h
  rcases hl : ps.lockHeld
  · simp only [hl, Bool.false_eq_true, if_false] at h
    rcases hf : (finallyCleanup name
        (runBody name { ps with lockHeld := true, is_running := true }
          seconds hz direction fault).2.1
        (runBody name { ps with lockHeld := true, is_running := true }
          seconds hz direction fault).2.2).1 with e2 | u
    · simp only [hf] at h
      simp only [Except.error.injEq] at h
      rw [← h, finallyCleanup_err _ _ _ e2 hf]
      exact Or.inr (Or.inr (Or.inr (Or.inl rfl)))
    · simp only [hf] at h
      rcases hb : (runBody name
          { ps with lockHeld := true, is_running := true }
          seconds hz direction fault).1 with e3 | u3
      · simp only [hb, Except.error.injEq] at h
        rw [← h]
        rcases runBody_err name _ seconds hz direction fault e3 hb with
          h1 | h1 | h1 | h1 | h1 <;> rw [h1]
        · exact Or.inr (Or.inl rfl)
        · exact Or.inr (Or.inr (Or.inl rfl))
        · exact Or.inr (Or.inr (Or.inr (Or.inl rfl)))
        · exact Or.inr (Or.inr (Or.inr (Or.inr (Or.inl rfl))))
        · exact Or.inr (Or.inr (Or.inr (Or.inr (Or.inr rfl))))
      · simp only [hb] at h
        cases h
  · simp only [hl, if_true] at h
    simp only [Except.error.injEq] at h
    exact Or.inl h.symm

/-- Helper: `run_for_seconds` never raises `CalibrationMissing`. -/
theorem run_no_calibration_error (name : String) (ps : PumpState)
    (seconds hz : ℚ) (direction : String) (fault : Bool) (p : String) :
    (run_for_seconds name ps seconds hz direction fault).1
      ≠ .error (.calibrationMissing p) := by
  intro h
  rcases run_err name ps seconds hz direction fault _ h with
    h1 | h1 | h1 | h1 | h1 | h1 <;> cases h1

/-- C5: `dispense_ml` reloads the calibration rate `r` from the store and
fails with `CalibrationMissing` exactly when `r ≤ 0` (performing no
hardware action in that case); when `r > 0` it delegates to
`run_for_seconds` with duration exactly `ml / r`, and a successful result
additionally carries the volume and the rate used. -/
theorem dispense_ml_spec (store : CalStore) (name : String) (ps : PumpState)
    (ml hz : ℚ) (direction : String) (fault : Bool) :
    ((∃ p, (dispense_ml store name ps ml hz direction fault).1
        = .error (.calibrationMissing p)) ↔
      pump_load_calibration store name ≤ 0) ∧
    (pump_load_calibration store name ≤ 0 →
      (dispense_ml store name ps ml hz direction fault).2.2 = [] ∧
      (dispense_ml store name ps ml hz direction fault).2.1
        = { ps with calibration_rate := pump_load_calibration store name }) ∧
    (0 < pump_load_calibration store name →
      (dispense_ml store name ps ml hz direction fault).2
        = (run_for_seconds name
            { ps with calibration_rate := pump_load_calibration store name }
            (ml / pump_load_calibration store name) hz direction fault).2 ∧
      (∀ res, (run_for_seconds name
            { ps with calibration_rate := pump_load_calibration store name }
            (ml / pump_load_calibration store name) hz direction fault).1
          = .ok res →
        (dispense_ml store name ps ml hz direction fault).1
          = .ok { res with
              ml := some ml,
              rate_ml_per_sec := some (pump_load_calibration store name) }) ∧
      (∀ e, (run_for_seconds name
            { ps with calibration_rate := pump_load_calibration store name }
            (ml / pump_load_calibration store name) hz direction fault).1
          = .error e →
        (dispense_ml store name ps ml hz direction fault).1 = .error e)) := by
  set r := pump_load_calibration store name with hr
  by_cases hle : r ≤ 0
  · refine ⟨⟨fun _ => hle, fun _ => ⟨name, ?_⟩⟩, fun _ => ⟨?_, ?_⟩,
      fun hpos => absurd hpos (not_lt.mpr hle)⟩ <;>
      simp [dispense_ml, ← hr, hle]
  · constructor
    · constructor
      · rintro ⟨p, hp⟩
        exfalso
        unfold dispense_ml at hp
        simp only [← hr, if_neg hle] at hp
        rcases ho : (run_for_seconds name { ps with calibration_rate := r }
            (ml / r) hz direction fault).1 with e | res
        · rw [ho] at hp
          simp only [Except.error.injEq] at hp
          exact run_no_calibration_error name
            { ps with calibration_rate := r } (ml / r) hz direction fault p
            (by rw [ho, hp])
        · rw [ho] at hp
          simp at hp
      · intro h
        exact absurd h hle
    · refine ⟨fun h => absurd h hle, fun _ => ⟨?_, ?_, ?_⟩⟩
      · unfold dispense_ml
        simp only [← hr, if_neg hle]
        rcases ho : (run_for_seconds name { ps with calibration_rate := r }
            (ml / r) hz direction fault).1 with e | res <;> simp [ho]
      · intro res hres
        unfold dispense_ml
        simp only [← hr, if_neg hle, hres]
      · intro e he
        unfold dispense_ml
        simp only [← hr, if_neg hle, he]

/-- Witness for C5 at the shipped default calibration of the water pump
(rate 4.436 ml/s, positive), discharging the `0 < rate` hypothesis. -/
theorem dispense_ml_spec_witness :
    0 < pump_load_calibration CalStore.missing "water" ∧
    (dispense_ml CalStore.missing "water" (PumpState.fresh WATER_PINS 0)
        (1109/125) 100 "forward" false).2
      = (run_for_seconds "water"
          { PumpState.fresh WATER_PINS 0 with
              calibration_rate := pump_load_calibration CalStore.missing
                "water" }
          ((1109/125) / pump_load_calibration CalStore.missing "water") 100
          "forward" false).2 :=
  ⟨by norm_num [pump_load_calibration, get_pump_calibration,
      load_calibration, DEFAULT_CALIBRATION, List.lookup],
   ((dispense_ml_spec CalStore.missing "water" (PumpState.fresh WATER_PINS 0)
       (1109/125) 100 "forward" false).2.2
     (by norm_num [pump_load_calibration, get_pump_calibration,
        load_calibration, DEFAULT_CALIBRATION, List.lookup])).1⟩

/-- C10: a pump name with no entry under `"pumps"` in the (possibly
missing or corrupt) calibration store gets `None` from
`get_pump_calibration`, a refreshed `calibration_rate` of 0.0, and every
`dispense_ml` call on it fails with `CalibrationMissing` without any
hardware action; the shipped default store gives pump `food` the rate 0.0,
so its volume-based dosing fails the same way. -/
theorem missing_calibration_spec (store : CalStore) (pump : String)
    (ps : PumpState) (ml hz : ℚ) (direction : String) (fault : Bool)
    (habs : ((load_calibration store).pumps).lookup pump = none) :
    get_pump_calibration store pump = none ∧
    pump_load_calibration store pump = 0 ∧
    (dispense_ml store pump ps ml hz direction fault).1
      = .error (.calibrationMissing pump) ∧
    (dispense_ml store pump ps ml hz direction fault).2.1
      = { ps with calibration_rate := 0 } ∧
    (dispense_ml store pump ps ml hz direction fault).2.2 = [] ∧
    get_pump_calibration CalStore.missing "food" = some 0 ∧
    ∀ ps2 ml2 hz2 dir2 f2,
      (dispense_ml CalStore.missing "food" ps2 ml2 hz2 dir2 f2).1
        = .error (.calibrationMissing "food") := by
  have h1 : get_pump_calibration store pump = none := by
    unfold get_pump_calibration
    simp [habs]
  have h2 : pump_load_calibration store pump = 0 := by
    simp [pump_load_calibration, h1]
  have hf : pump_load_calibration CalStore.missing "food" = 0 := by
    simp [pump_load_calibration, get_pump_calibration, load_calibration,
      DEFAULT_CALIBRATION, List.lookup]
  refine ⟨h1, h2, ?_, ?_, ?_, ?_, ?_⟩
  · simp [dispense_ml, h2]
  · simp [dispense_ml, h2]
  · simp [dispense_ml, h2]
  · simp [get_pump_calibration, load_calibration, DEFAULT_CALIBRATION,
      List.lookup]
  · intro ps2 ml2 hz2 dir2 f2
    simp [dispense_ml, hf]

/-- Witness for C10: a present store whose `"pumps"` map is empty. -/
theorem missing_calibration_spec_witness :
    get_pump_calibration (CalStore.present { pumps := [] }) "water" = none ∧
    (dispense_ml (CalStore.present { pumps := [] }) "water"
        (PumpState.fresh WATER_PINS 5) 10 100 "forward" false).1
      = .error (.calibrationMissing "water") :=
  have h := missing_calibration_spec (CalStore.present { pumps := [] })
    "water" (PumpState.fresh WATER_PINS 5) 10 100 "forward" false rfl
  ⟨h.1, h.2.2.1⟩

/-- C3 counterexample: with `dayStart = dayEnd = 07:00:00` the code deems
`t = 03:00:00` within the window, so the degenerate case is not
never-lit. -/
theorem is_within_window_equal_counterexample :
    ¬ (is_within_window 25200 25200 10800 = false) := by decide

/-- C3 (amended): membership is `dayStart ≤ t < dayEnd` when
`dayStart < dayEnd`, is `NOT (dayEnd ≤ t < dayStart)` when
`dayStart > dayEnd`, and when `dayStart = dayEnd` every time is within
the window (always-lit degenerate case). -/
theorem is_within_window_spec (day_start day_end t : Nat) :
    (day_start < day_end →
      (is_within_window day_start day_end t = true ↔
        day_start ≤ t ∧ t < day_end)) ∧
    (day_end < day_start →
      (is_within_window day_start day_end t = true ↔
        ¬ (day_end ≤ t ∧ t < day_start))) ∧
    (day_start = day_end → is_within_window day_start day_end t = true) := by
  unfold is_within_window
  refine ⟨fun h => ?_, fun h => ?_, fun h => ?_⟩
  · rw [if_pos h]
    simp
  · rw [if_neg (by omega)]
    simp
    omega
  · rw [if_neg (by omega)]
    simp
    omega

/-- Witness for C3 at concrete times in all three window shapes. -/
theorem is_within_window_spec_witness :
    is_within_window 360 720 500 = true ∧
    is_within_window 720 360 100 = true ∧
    is_within_window 25200 25200 0 = true :=
  ⟨((is_within_window_spec 360 720 500).1 (by decide)).mpr (by omega),
   ((is_within_window_spec 720 360 100).2.1 (by decide)).mpr (by omega),
   (is_within_window_spec 25200 25200 0).2.2 rfl⟩

/-- C9 counterexample: from the boot configuration (mode `manual`),
`set_config("daynight", "oops", "07:00")` fails with the time-format
error, yet the stored mode has already changed to `daynight`. -/
theorem set_config_failure_keeps_mode_counterexample :
    (set_config LightConfig.boot "daynight" "oops" "07:00").1
        = .error .invalidTimeFormat ∧
    ¬ ((set_config LightConfig.boot "daynight" "oops" "07:00").2.mode
        = LightConfig.boot.mode) :=
  ⟨rfl, by decide⟩

/-- C9 (amended): `set_config` validates the lowercased mode first and an
`InvalidMode` failure leaves the stored configuration unchanged; but the
mode is stored before the times are parsed, so a day-start parse failure
leaves the new mode stored, a day-end parse failure leaves the new mode
and day-start stored, and all three fields hold the requested values
exactly when every validation and parse succeeds. -/
theorem set_config_spec (cfg : LightConfig)
    (mode day_start day_end : String) :
    (¬ (pyLower mode = "manual".toList ∨ pyLower mode = "daynight".toList) →
      (set_config cfg mode day_start day_end).1 = .error .invalidMode ∧
      (set_config cfg mode day_start day_end).2 = cfg) ∧
    ((pyLower mode = "manual".toList ∨ pyLower mode = "daynight".toList) →
      (∀ e, parse_hhmm day_start = .error e →
        (set_config cfg mode day_start day_end).1 = .error e ∧
        (set_config cfg mode day_start day_end).2
          = { cfg with mode := pyLower mode }) ∧
      (∀ ds, parse_hhmm day_start = .ok ds →
        (∀ e, parse_hhmm day_end = .error e →
          (set_config cfg mode day_start day_end).1 = .error e ∧
          (set_config cfg mode day_start day_end).2
            = { cfg with mode := pyLower mode, day_start := ds }) ∧
        (∀ de, parse_hhmm day_end = .ok de →
          (set_config cfg mode day_start day_end).1
            = .ok { mode := pyLower mode, day_start := ds, day_end := de } ∧
          (set_config cfg mode day_start day_end).2
            = { mode := pyLower mode, day_start := ds, day_end := de }))) := by
  unfold set_config
  constructor
  · intro hbad
    have hc : pyLower mode ≠ "manual".toList ∧ pyLower mode ≠ "daynight".toList := by
      push_neg at hbad
      exact hbad
    rw [if_pos hc]
    exact ⟨rfl, rfl⟩
  · intro hok
    have hc : ¬ (pyLower mode ≠ "manual".toList ∧
        pyLower mode ≠ "daynight".toList) := by
      rcases hok with h | h <;> simp [h]
    rw [if_neg hc]
    refine ⟨fun e he => ?_, fun ds hds => ⟨fun e he => ?_, fun de hde => ?_⟩⟩
    · rw [he]
      exact ⟨rfl, rfl⟩
    · rw [hds, he]
      exact ⟨rfl, rfl⟩
    · rw [hds, hde]
      exact ⟨rfl, rfl⟩

/-- Witness for C9: a fully successful call with mixed-case mode. -/
theorem set_config_spec_witness :
    (set_config LightConfig.boot "DayNight" "06:00" "20:00:15").1
      = .ok { mode := "daynight".toList, day_start := 21600,
              day_end := 72015 } :=
  (((set_config_spec LightConfig.boot "DayNight" "06:00" "20:00:15").2
      (by decide) ).2 21600 (by rfl)).2 72015 (by rfl) |>.1

/-- C6: with plant status `germinated`, a tick never doses when the
persisted date already equals today (at any time of day); when the date
differs and the dose time has passed, it attempts exactly one dose,
persists today's date exactly on a successful dose action, and leaves the
persisted state untouched when the dose action fails, so the next tick
retries. -/
theorem tick_food_gating (env : TickEnv) (st : SchedState) (now : Now)
    (dn : Bool) :
    (st.last_food_date = now.dateIso →
      tick env "germinated" st now dn
        = { outcome := .ok (), foodAttempts := 0, state := st,
            lightingApplied := dn && !env.lightingRaises }) ∧
    (st.last_food_date ≠ now.dateIso → FOOD_DOSE_TIME_SECONDS ≤ now.tod →
      (tick env "germinated" st now dn).foodAttempts = 1 ∧
      (env.doseOutcome = .ok →
        tick env "germinated" st now dn
          = { outcome := .ok (), foodAttempts := 1,
              state := { last_food_date := now.dateIso,
                         last_food_at := now.iso },
              lightingApplied := dn && !env.lightingRaises }) ∧
      (env.doseOutcome ≠ .ok →
        (tick env "germinated" st now dn).state = st)) := by
  constructor
  · intro hsame
    unfold tick food_due
    simp [hsame]
  · intro hdiff htime
    have hdue : food_due now st.last_food_date = true := by
      unfold food_due
      simp [htime, hdiff]
    unfold tick
    rcases henv : env.doseOutcome with _ | _ | _ <;>
      simp [henv, hdue] <;>
      rcases hl : env.failLogRaises <;> simp [hl]

/-- Witness for C6: the dose-due branch with a successful dose at a
concrete clock reading. -/
theorem tick_food_gating_witness :
    tick goodTickEnv "germinated" emptySchedState sampleNow true
      = { outcome := .ok (), foodAttempts := 1,
          state := { last_food_date := "2026-01-02",
                     last_food_at := "2026-01-02T13:53:20-08:00" },
          lightingApplied := true } :=
  ((tick_food_gating goodTickEnv emptySchedState sampleNow true).2
    (by decide) (by decide)).2.1 rfl

/-- C7 counterexample: when the dispense raises and the `log_event` call
inside the `except:` handler raises as well, the exception escapes `tick`,
and `run_forever` terminates without reaching its next iteration. -/
theorem tick_exception_escapes_counterexample :
    (tick badTickEnv "germinated" emptySchedState sampleNow
        true).outcome
      = .error "log_event raised inside the except handler" ∧
    run_forever emptySchedState [badTickInput, goodTickInput]
      = .error "log_event raised inside the except handler" :=
  ⟨rfl, rfl⟩

/-- C7 (amended): exceptions raised by the lighting block and by the
food-dose action are caught inside `tick`, so whenever the logging call
inside the food-failure handler does not itself raise, every tick returns
normally and `run_forever` completes every iteration; an exception in
that handler's log call, however, escapes and terminates the loop. -/
theorem tick_caught_exceptions_spec :
    (∀ (env : TickEnv) (status : String) (st : SchedState) (now : Now)
        (dn : Bool), env.failLogRaises = false →
      (tick env status st now dn).outcome = .ok ()) ∧
    (∀ (st : SchedState) (inputs : List TickInput),
      (∀ i ∈ inputs, i.env.failLogRaises = false) →
      ∃ st2, run_forever st inputs = .ok (st2, inputs.length)) := by
  have h1 : ∀ (env : TickEnv) (status : String) (st : SchedState)
      (now : Now) (dn : Bool), env.failLogRaises = false →
      (tick env status st now dn).outcome = .ok () := by
    intro env status st now dn hlog
    unfold tick
    by_cases hst : status = "germinated"
    · rcases hdue : food_due now st.last_food_date <;>
        rcases henv : env.doseOutcome <;>
        simp [hst, hdue, henv, hlog]
    · simp [hst]
  refine ⟨h1, ?_⟩
  intro st inputs
  induction inputs generalizing st with
  | nil => exact fun _ => ⟨st, rfl⟩
  | cons i rest ih =>
    intro hall
    have hout := h1 i.env i.status st i.now i.daynightStarted
      (hall i (List.mem_cons_self i rest))
    rcases ih (tick i.env i.status st i.now i.daynightStarted).state
        (fun j hj => hall j (List.mem_cons_of_mem i hj)) with ⟨st2, hst2⟩
    refine ⟨st2, ?_⟩
    unfold run_forever
    simp only [hout, hst2, List.length_cons]

/-- Witness for C7: a tick whose lighting block and dispense both raise
still returns normally when the handler log call works, and a two-
iteration loop completes both iterations. -/
theorem tick_caught_exceptions_spec_witness :
    (tick { lightingRaises := true, doseOutcome := .dispenseFail,
            failLogRaises := false } "germinated" emptySchedState sampleNow
        true).outcome = .ok () ∧
    ∃ st2, run_forever emptySchedState [goodTickInput, goodTickInput]
      = .ok (st2, 2) :=
  ⟨tick_caught_exceptions_spec.1
    { lightingRaises := true, doseOutcome := .dispenseFail,
      failLogRaises := false } "germinated" emptySchedState sampleNow true
    rfl,
   tick_caught_exceptions_spec.2 emptySchedState
    [goodTickInput, goodTickInput] (by decide)⟩

/-- C1 (code bug): with `water` already running, `run_multi_seconds` on
`["food", "water"]` acquires `food`'s guard and hits the busy `water`;
but the `finally:` teardown's first `_enable_driver(False)` raises
`KeyError("EN")` (the shipped `PUMP_PINS` has no `EN` key), which
replaces the `AlreadyRunning` error and aborts the loop before
`_lock.release()` — the call fails with `KeyError`, writes nothing, and
leaves `food`'s freshly acquired guard held. -/
theorem run_multi_busy_keyerror :
    lockOf (twoPumpTable "water") = true ∧
    lockOf (twoPumpTable "food") = false ∧
    (run_multi_seconds (some 1) twoPumpTable ["food", "water"] 3 100
        "forward" false).1 = .error (.keyError "EN") ∧
    (run_multi_seconds (some 1) twoPumpTable ["food", "water"] 3 100
        "forward" false).2.2 = [] ∧
    lockOf ((run_multi_seconds (some 1) twoPumpTable ["food", "water"] 3
        100 "forward" false).2.1 "food") = true ∧
    lockOf ((run_multi_seconds (some 1) twoPumpTable ["food", "water"] 3
        100 "forward" false).2.1 "water") = true :=
  ⟨rfl, rfl, rfl, rfl, rfl, rfl⟩

/-- C4 (code bug): the voltage counting and vote gate work as specified
(over = 2 on the worked example, no pump interaction and no "after"
snapshot at `vote_k = 3`), but a triggered cycle (`vote_k = 2`) calls
`run_for_seconds`, which raises `KeyError("EN")` under the shipped pin
maps — the cycle propagates the exception instead of completing with one
pump run and an "after" snapshot, and the pump's guard is left held. -/
theorem control_cycle_keyerror :
    ((exampleVolts.filter (fun v => (2 : ℚ) < v)).length = 2) ∧
    (control_cycle_once "water" (boundPump WATER_PINS 1 4) exampleVolts
        exampleVolts 2 3 10000 5 "forward" false
      = (.ok { target_threshold := 2, vote_k := 3, pump := "water",
               before := exampleVolts, after := none,
               under_threshold_count := 2, triggered := false,
               irrigated := false, pump_action := none },
         boundPump WATER_PINS 1 4, [])) ∧
    ((control_cycle_once "water" (boundPump WATER_PINS 1 4) exampleVolts
        exampleVolts 2 2 10000 5 "forward" false).1
      = .error (.keyError "EN")) ∧
    (((control_cycle_once "water" (boundPump WATER_PINS 1 4) exampleVolts
        exampleVolts 2 2 10000 5 "forward" false).2.1).lockHeld
      = true) := by
  have hrun : run_for_seconds "water" (boundPump WATER_PINS 1 4) 5 10000
      "forward" false
      = (.error (.keyError "EN"),
         { pins := WATER_PINS, handle := some 1, lockHeld := true,
           is_running := true, en := 1, dir := 1, calibration_rate := 4 },
         [GpioEvent.dirWrite "water" 1]) := rfl
  refine ⟨by norm_num [exampleVolts, List.filter],
    by norm_num [control_cycle_once, exampleVolts, List.filter],
    by norm_num [control_cycle_once, exampleVolts, List.filter, hrun],
    by norm_num [control_cycle_once, exampleVolts, List.filter, hrun]⟩

/-- C8 (code bug): the non-blocking guard still makes a second
overlapping call fail immediately with `AlreadyRunning` and never lets
two runs overlap, but no call to `run_for_seconds` can succeed: the
guard holder itself fails with `KeyError("EN")` and — the `finally:`
raising before `_lock.release()` — exits with the guard still held, so
of two concurrent calls neither succeeds and the guard is never
released. -/
theorem concurrent_calls_keyerror :
    (run_for_seconds "water" (boundPump WATER_PINS 1 4) 5 100 "forward"
        false).1 = .error (.keyError "EN") ∧
    ((run_for_seconds "water" (boundPump WATER_PINS 1 4) 5 100 "forward"
        false).2.1).lockHeld = true ∧
    (run_for_seconds "water"
        { boundPump WATER_PINS 1 4 with
            lockHeld := true, is_running := true } 5 100 "forward" false)
      = (.error (.alreadyRunning "water"),
         { boundPump WATER_PINS 1 4 with
             lockHeld := true, is_running := true }, []) ∧
    (run_for_seconds "water"
        ((run_for_seconds "water" (boundPump WATER_PINS 1 4) 5 100
          "forward" false).2.1) 5 100 "forward" false).1
      = .error (.alreadyRunning "water") :=
  ⟨rfl, rfl, rfl, rfl⟩

end Amiga
